import Mathlib

/-!
Verification of the execution-span engine of `interface-core`.

Shallow embedding of:
- `src/execution/types.ts` — the span data model (`SpanType`, `SpanStatus`,
  `Artifact`, `EvidenceReference`, `ExecutionSpan`, `ExecutionGraph`,
  `CoreExecutionResult`, `ExecutionContext`);
- `src/execution/span-manager.ts` — span lifecycle (`createSpan`,
  `createCoreSpan`, `createRepoSpan`, `createAgentSpan`, `finalizeSpan`,
  `buildExecutionContext`);
- the execution-graph validator module (`validateExecutionGraph`,
  `collectAllSpans`, `buildExecutionGraph`, `buildExecutionResult`).

Modelling conventions:
- TypeScript `string | null` / optional arguments become `Option`.
- `randomUUID()` and `new Date().toISOString()` are nondeterministic inputs;
  each generated id / timestamp becomes an explicit `String` parameter of the
  embedded function.
- The TypeScript functions in this module have no `throw` path, so every
  embedded function is total.
- `ExecutionSpan.metadata` (`metadata?: Record<string, unknown>`) is not read
  or written by any function in these modules and is omitted from the record.
- `unknown` payload data (`Artifact.data`) is modelled as `Option String`.
-/

namespace InterfaceCore

/-- SpanType: `'core' | 'repo' | 'agent'` from `src/execution/types.ts`. -/
inductive SpanType where
  | core
  | repo
  | agent
deriving DecidableEq, Repr

/-- SpanStatus: `'success' | 'failed' | 'pending'` from `src/execution/types.ts`. -/
inductive SpanStatus where
  | success
  | failed
  | pending
deriving DecidableEq, Repr

/-- Artifact attached to a span (`src/execution/types.ts`). -/
structure Artifact where
  id : String
  type : String
  reference : String
  data : Option String
deriving DecidableEq, Repr

/-- Evidence type: `'hash' | 'uri' | 'id'`. -/
inductive EvidenceType where
  | hash
  | uri
  | id
deriving DecidableEq, Repr

/-- Machine-verifiable evidence reference (`src/execution/types.ts`). -/
structure EvidenceReference where
  id : String
  type : EvidenceType
  value : String
deriving DecidableEq, Repr

/-- A single execution span in the Core → Repo → Agent hierarchy
(`src/execution/types.ts`).  Recursive through `children`, so it is an
inductive with one constructor; field accessors are defined below. -/
inductive ExecutionSpan where
  | mk (span_id : String) (parent_span_id : Option String) (type : SpanType)
      (name : String) (start_time : String) (end_time : Option String)
      (status : SpanStatus) (artifacts : List Artifact)
      (evidence : List EvidenceReference) (children : List ExecutionSpan)

def ExecutionSpan.span_id : ExecutionSpan → String
  | .mk v _ _ _ _ _ _ _ _ _ => v

def ExecutionSpan.parent_span_id : ExecutionSpan → Option String
  | .mk _ v _ _ _ _ _ _ _ _ => v

def ExecutionSpan.type : ExecutionSpan → SpanType
  | .mk _ _ v _ _ _ _ _ _ _ => v

def ExecutionSpan.name : ExecutionSpan → String
  | .mk _ _ _ v _ _ _ _ _ _ => v

def ExecutionSpan.start_time : ExecutionSpan → String
  | .mk _ _ _ _ v _ _ _ _ _ => v

def ExecutionSpan.end_time : ExecutionSpan → Option String
  | .mk _ _ _ _ _ v _ _ _ _ => v

def ExecutionSpan.status : ExecutionSpan → SpanStatus
  | .mk _ _ _ _ _ _ v _ _ _ => v

def ExecutionSpan.artifacts : ExecutionSpan → List Artifact
  | .mk _ _ _ _ _ _ _ v _ _ => v

def ExecutionSpan.evidence : ExecutionSpan → List EvidenceReference
  | .mk _ _ _ _ _ _ _ _ v _ => v

def ExecutionSpan.children : ExecutionSpan → List ExecutionSpan
  | .mk _ _ _ _ _ _ _ _ _ v => v

/-- The complete execution graph (`src/execution/types.ts`). -/
structure ExecutionGraph where
  execution_id : String
  root_span : ExecutionSpan
  all_spans : List ExecutionSpan
  created_at : String
  valid : Bool
  failure_reasons : List String

/-- The Core execution result (`src/execution/types.ts`). -/
structure CoreExecutionResult where
  core_name : String
  execution_id : String
  status : SpanStatus
  execution_graph : ExecutionGraph
  failure_reasons : List String

/-- Context passed to downstream repos/adapters (`src/execution/types.ts`). -/
structure ExecutionContext where
  execution_id : String
  parent_span_id : String
  core_span_id : String
deriving DecidableEq, Repr

/-! ## Span manager (`src/execution/span-manager.ts`)

`generateSpanId` / `generateExecutionId` return `randomUUID()`; the freshly
generated identifier is modelled as an explicit argument, and likewise each
`new Date().toISOString()` instant. -/

/-- createSpan: build a fresh span in `pending` state with empty lists. -/
def createSpan (type : SpanType) (name : String) (parentSpanId : Option String)
    (genSpanId : String) (now : String) : ExecutionSpan :=
  .mk genSpanId parentSpanId type name now none SpanStatus.pending [] [] []

/-- createCoreSpan: core-level root span; `parentSpanId ?? null` collapses an
absent argument to `null`, which `Option.none` already captures. -/
def createCoreSpan (name : String) (parentSpanId : Option String)
    (genSpanId : String) (now : String) : ExecutionSpan :=
  createSpan SpanType.core name parentSpanId genSpanId now

/-- createRepoSpan: repo-level span (child of core). -/
def createRepoSpan (repoName : String) (parentSpanId : String)
    (genSpanId : String) (now : String) : ExecutionSpan :=
  createSpan SpanType.repo repoName (some parentSpanId) genSpanId now

/-- createAgentSpan: agent-level span (child of repo). -/
def createAgentSpan (agentName : String) (parentSpanId : String)
    (genSpanId : String) (now : String) : ExecutionSpan :=
  createSpan SpanType.agent agentName (some parentSpanId) genSpanId now

/-- finalizeSpan: sets `end_time` to the current instant and `status` to the
given status, then pushes any supplied artifacts and evidence onto the span's
lists.  The source mutates the span in place and returns it; the embedding
returns the updated span.  There is no `throw` path and no check of the
current `end_time`/`status`. -/
def finalizeSpan (span : ExecutionSpan) (status : SpanStatus)
    (artifacts : Option (List Artifact)) (evidence : Option (List EvidenceReference))
    (now : String) : ExecutionSpan :=
  match span with
  | .mk sid pid ty nm startTime _ _ arts evs ch =>
      .mk sid pid ty nm startTime (some now) status
        (arts ++ artifacts.getD []) (evs ++ evidence.getD []) ch

/-- buildExecutionContext: pure record construction from the three arguments;
the source performs no validation of any kind on them. -/
def buildExecutionContext (executionId : String) (coreSpanId : String)
    (parentSpanId : String) : ExecutionContext :=
  { execution_id := executionId
    parent_span_id := parentSpanId
    core_span_id := coreSpanId }

/-! ## Execution graph validator -/

/-- Render a `SpanType` the way a template literal renders the union string. -/
def SpanType.str : SpanType → String
  | .core => "core"
  | .repo => "repo"
  | .agent => "agent"

/-- Render `string | null` the way a template literal renders it (`null`). -/
def showOpt : Option String → String
  | some s => s
  | none => "null"

def rootTypeFailure (t : SpanType) : String :=
  "Root span type is \"" ++ t.str ++ "\", expected \"core\""

def zeroRepoFailure : String :=
  "Core span has zero repo-level child spans"

def repoParentFailure (repoSpan coreSpan : ExecutionSpan) : String :=
  "Repo span \"" ++ repoSpan.name ++ "\" parent_span_id \"" ++
    showOpt repoSpan.parent_span_id ++ "\" does not match core span_id \"" ++
    coreSpan.span_id ++ "\""

def zeroAgentFailure (repoSpan : ExecutionSpan) : String :=
  "Repo span \"" ++ repoSpan.name ++ "\" has zero agent-level child spans"

def agentParentFailure (agentSpan repoSpan : ExecutionSpan) : String :=
  "Agent span \"" ++ agentSpan.name ++ "\" parent_span_id \"" ++
    showOpt agentSpan.parent_span_id ++ "\" does not match repo span_id \"" ++
    repoSpan.span_id ++ "\""

def nonRepoChildFailure (c : ExecutionSpan) : String :=
  "Core span has non-repo child \"" ++ c.name ++ "\" of type \"" ++
    c.type.str ++ "\""

/-- Result of `validateExecutionGraph` (anonymous object type in the source). -/
structure ValidationResult where
  valid : Bool
  failures : List String
deriving DecidableEq, Repr

/-- Failures contributed by one iteration of the `for (const repoSpan of
repoChildren)` loop: the parent-pointer check, the zero-agent-children check,
and the per-agent parent-pointer checks, in push order. -/
def repoSpanFailures (coreSpan repoSpan : ExecutionSpan) : List String :=
  let agentChildren := repoSpan.children.filter (fun c => c.type == SpanType.agent)
  (if repoSpan.parent_span_id = some coreSpan.span_id then []
    else [repoParentFailure repoSpan coreSpan])
  ++ (if agentChildren.length = 0 then [zeroAgentFailure repoSpan] else [])
  ++ agentChildren.filterMap (fun agentSpan =>
      if agentSpan.parent_span_id = some repoSpan.span_id then none
      else some (agentParentFailure agentSpan repoSpan))

/-- validateExecutionGraph: structural integrity of a graph rooted at a core
span.  Failures are accumulated in source push order: root-type check, the
zero-repo-children check, the per-repo-child loop, then the non-repo-child
checks at core level.  `valid` is `failures.length === 0`. -/
def validateExecutionGraph (coreSpan : ExecutionSpan) : ValidationResult :=
  let repoChildren := coreSpan.children.filter (fun c => c.type == SpanType.repo)
  let invalidCoreChildren :=
    coreSpan.children.filter (fun c => !(c.type == SpanType.repo))
  let failures :=
    (if coreSpan.type = SpanType.core then [] else [rootTypeFailure coreSpan.type])
    ++ (if repoChildren.length = 0 then [zeroRepoFailure] else [])
    ++ (repoChildren.map (repoSpanFailures coreSpan)).flatten
    ++ invalidCoreChildren.map nonRepoChildFailure
  { valid := failures.length == 0
    failures := failures }

/-- collectAllSpans: recursively collect all spans from a root span into a
flat array, root first, then each child's subtree in child order.  The
`attach` is only the termination instrumentation for the nested recursion. -/
def collectAllSpans : ExecutionSpan → List ExecutionSpan
  | t@(.mk _ _ _ _ _ _ _ _ _ ch) =>
      t :: (ch.attach.map (fun c => collectAllSpans c.1)).flatten
decreasing_by
  have h1 := List.sizeOf_lt_of_mem c.2
  simp only [ExecutionSpan.mk.sizeOf_spec]
  omega

/-- buildExecutionGraph: assemble the `ExecutionGraph` from a finalized core
span.  `genId` is the value `generateExecutionId()` would return if consulted
and `now` the `new Date().toISOString()` instant. -/
def buildExecutionGraph (coreSpan : ExecutionSpan) (executionId : Option String)
    (genId : String) (now : String) : ExecutionGraph :=
  let validation := validateExecutionGraph coreSpan
  let allSpans := collectAllSpans coreSpan
  { execution_id := executionId.getD genId
    root_span := coreSpan
    all_spans := allSpans
    created_at := now
    valid := validation.valid
    failure_reasons := validation.failures }

/-- buildExecutionResult: build the `CoreExecutionResult`.  `genId` is the id
that `executionId ?? generateExecutionId()` falls back to, `genId2` the (in
fact never-consulted) fallback inside the nested `buildExecutionGraph` call,
and `now` the graph creation instant.  Overall status is the core span's own
status, overridden to `failed` when the graph is invalid. -/
def buildExecutionResult (coreSpan : ExecutionSpan) (coreName : String)
    (executionId : Option String) (genId : String) (genId2 : String)
    (now : String) : CoreExecutionResult :=
  let execId := executionId.getD genId
  let graph := buildExecutionGraph coreSpan (some execId) genId2 now
  let status := if graph.valid then coreSpan.status else SpanStatus.failed
  { core_name := coreName
    execution_id := execId
    status := status
    execution_graph := graph
    failure_reasons := graph.failure_reasons }

/-! ## Specification-side auxiliary notions -/

/-- Total number of spans in a tree (the "N total spans" of the spec). -/
def spanCount : ExecutionSpan → Nat
  | .mk _ _ _ _ _ _ _ _ _ ch => 1 + (ch.attach.map (fun c => spanCount c.1)).sum
decreasing_by
  have h1 := List.sizeOf_lt_of_mem c.2
  simp only [ExecutionSpan.mk.sizeOf_spec]
  omega

/-- The multiset of nodes of a span tree: each tree node contributes exactly
one occurrence. -/
def nodes : ExecutionSpan → Multiset ExecutionSpan
  | t@(.mk _ _ _ _ _ _ _ _ _ ch) =>
      t ::ₘ (ch.attach.map (fun c => nodes c.1)).sum
decreasing_by
  have h1 := List.sizeOf_lt_of_mem c.2
  simp only [ExecutionSpan.mk.sizeOf_spec]
  omega

/-! ## Basic lemmas about the embedding -/

theorem spanCount_mk (i p ty n st et s a e : _) (ch : List ExecutionSpan) :
    spanCount (.mk i p ty n st et s a e ch) = 1 + (ch.map spanCount).sum := by
  rw [spanCount.eq_1]
  rw [List.attach_map_val]

theorem collectAllSpans_eq (t : ExecutionSpan) :
    collectAllSpans t = t :: (t.children.map collectAllSpans).flatten := by
  match t with
  | .mk i p ty n st et s a e ch =>
    rw [collectAllSpans.eq_1]
    rw [List.attach_map_val, ExecutionSpan.children]

theorem nodes_mk (i p ty n st et s a e : _) (ch : List ExecutionSpan) :
    nodes (.mk i p ty n st et s a e ch) =
      ExecutionSpan.mk i p ty n st et s a e ch ::ₘ (ch.map nodes).sum := by
  rw [nodes.eq_1]
  rw [List.attach_map_val]

/-- Structural induction over span trees with a membership hypothesis for the
children. -/
theorem ExecutionSpan.recOnMem {motive : ExecutionSpan → Prop}
    (h : ∀ i p ty n st et s a e (ch : List ExecutionSpan),
      (∀ c ∈ ch, motive c) → motive (.mk i p ty n st et s a e ch)) :
    ∀ t, motive t
  | .mk i p ty n st et s a e ch =>
    h i p ty n st et s a e ch (fun c hc =>
      have : sizeOf c < sizeOf (ExecutionSpan.mk i p ty n st et s a e ch) := by
        have h1 := List.sizeOf_lt_of_mem hc
        simp only [ExecutionSpan.mk.sizeOf_spec]
        omega
      ExecutionSpan.recOnMem h c)

/-- The `failures` list of `validateExecutionGraph`, decomposed into its four
push phases. -/
theorem validateExecutionGraph_failures (coreSpan : ExecutionSpan) :
    (validateExecutionGraph coreSpan).failures =
      (if coreSpan.type = SpanType.core then []
        else [rootTypeFailure coreSpan.type])
      ++ (if (coreSpan.children.filter (fun c => c.type == SpanType.repo)).length = 0
            then [zeroRepoFailure] else [])
      ++ ((coreSpan.children.filter (fun c => c.type == SpanType.repo)).map
            (repoSpanFailures coreSpan)).flatten
      ++ (coreSpan.children.filter (fun c => !(c.type == SpanType.repo))).map
            nonRepoChildFailure := rfl

/-- `valid` is the emptiness test on the accumulated failures. -/
theorem validateExecutionGraph_valid (coreSpan : ExecutionSpan) :
    (validateExecutionGraph coreSpan).valid =
      ((validateExecutionGraph coreSpan).failures.length == 0) := rfl

/-- Any recorded failure forces `valid = false`. -/
theorem valid_eq_false_of_mem_failures (coreSpan : ExecutionSpan) (msg : String)
    (h : msg ∈ (validateExecutionGraph coreSpan).failures) :
    (validateExecutionGraph coreSpan).valid = false := by
  rw [validateExecutionGraph_valid]
  have hne := List.ne_nil_of_mem h
  simp only [Nat.beq_eq_true_eq, beq_eq_false_iff_ne, ne_eq]
  intro hlen
  exact hne (List.eq_nil_of_length_eq_zero hlen)

/-! ## Concrete sample data -/

/-- A freshly created, never-finalized core span. -/
def sampleCoreSpan : ExecutionSpan :=
  .mk "core-1" none SpanType.core "interface-core" "t0" none SpanStatus.pending [] [] []

def sampleArtifact1 : Artifact := ⟨"art-1", "plan", "file://plan", none⟩

def sampleArtifact2 : Artifact := ⟨"art-2", "report", "file://report", none⟩

def sampleEvidence1 : EvidenceReference := ⟨"ev-1", EvidenceType.hash, "abc123"⟩

def sampleEvidence2 : EvidenceReference := ⟨"ev-2", EvidenceType.uri, "https://x"⟩

/-- A not-yet-finalized agent span that already carries one artifact and one
evidence reference. -/
def sampleUnfinalized : ExecutionSpan :=
  .mk "span-9" (some "parent-1") SpanType.agent "agent-op" "t0" none
    SpanStatus.pending [sampleArtifact1] [sampleEvidence1] []

/-! ## Claim theorems -/

/-- C1: for every core span, `buildExecutionResult` is total (the embedding
returns a result on every input, including structurally broken trees); its
`status` is the root span's own status when validation succeeds and `failed`
whenever validation fails, regardless of the root span's recorded status; its
`failure_reasons` is exactly the validator's failure list, and that list is
empty precisely when the graph is valid. -/
theorem buildExecutionResult_status_spec (coreSpan : ExecutionSpan)
    (coreName : String) (executionId : Option String) (genId genId2 now : String) :
    (buildExecutionResult coreSpan coreName executionId genId genId2 now).status
        = (if (validateExecutionGraph coreSpan).valid then coreSpan.status
            else SpanStatus.failed)
      ∧ (buildExecutionResult coreSpan coreName executionId genId genId2 now).failure_reasons
        = (validateExecutionGraph coreSpan).failures
      ∧ ((validateExecutionGraph coreSpan).failures.length == 0)
        = (validateExecutionGraph coreSpan).valid :=
  ⟨rfl, rfl, rfl⟩

/-- C10: the execution id (supplied or freshly generated) is threaded into the
embedded graph unchanged, and the result's failure list is the graph's failure
list itself. -/
theorem buildExecutionResult_threads_graph (coreSpan : ExecutionSpan)
    (coreName : String) (executionId : Option String) (genId genId2 now : String) :
    (buildExecutionResult coreSpan coreName executionId genId genId2 now).execution_id
        = (buildExecutionResult coreSpan coreName executionId genId genId2 now).execution_graph.execution_id
      ∧ (buildExecutionResult coreSpan coreName executionId genId genId2 now).failure_reasons
        = (buildExecutionResult coreSpan coreName executionId genId genId2 now).execution_graph.failure_reasons :=
  ⟨rfl, rfl⟩

/-- C2 counterexample: `finalizeSpan` has no already-finalized check.
Re-finalizing a span that was first finalized as `failed` succeeds (returns a
span, no error path exists) and the status read back is the second call's
`success`, not the first call's `failed`. -/
theorem finalizeSpan_double_finalize_counterexample :
    (finalizeSpan sampleCoreSpan SpanStatus.failed none none "t1").status
        = SpanStatus.failed
      ∧ (finalizeSpan (finalizeSpan sampleCoreSpan SpanStatus.failed none none "t1")
          SpanStatus.success none none "t2").status = SpanStatus.success
      ∧ (finalizeSpan (finalizeSpan sampleCoreSpan SpanStatus.failed none none "t1")
          SpanStatus.success none none "t2").status
        ≠ (finalizeSpan sampleCoreSpan SpanStatus.failed none none "t1").status := by
  refine ⟨rfl, rfl, ?_⟩
  decide

/-- C2 amended: `finalizeSpan` never rejects an already-finalized span; a
second call silently overwrites, so `status` and `end_time` read back reflect
the most recent finalization (last write wins). -/
theorem finalizeSpan_overwrites_on_refinalize (span : ExecutionSpan)
    (st1 st2 : SpanStatus) (a1 a2 : Option (List Artifact))
    (e1 e2 : Option (List EvidenceReference)) (t1 t2 : String) :
    (finalizeSpan (finalizeSpan span st1 a1 e1 t1) st2 a2 e2 t2).status = st2
      ∧ (finalizeSpan (finalizeSpan span st1 a1 e1 t1) st2 a2 e2 t2).end_time
        = some t2 := by
  cases span
  exact ⟨rfl, rfl⟩

/-- C3 counterexample: `finalizeSpan` called with `pending` does not raise; it
returns normally and records `status = pending` with the end time set. -/
theorem finalizeSpan_pending_counterexample :
    (finalizeSpan sampleCoreSpan SpanStatus.pending none none "t1").status
        = SpanStatus.pending
      ∧ (finalizeSpan sampleCoreSpan SpanStatus.pending none none "t1").end_time
        = some "t1" :=
  ⟨rfl, rfl⟩

/-- C3 amended: `finalizeSpan` accepts any `SpanStatus` argument, including
`pending`; it performs no status validation and simply stores the value. -/
theorem finalizeSpan_accepts_pending (span : ExecutionSpan)
    (artifacts : Option (List Artifact))
    (evidence : Option (List EvidenceReference)) (now : String) :
    (finalizeSpan span SpanStatus.pending artifacts evidence now).status
      = SpanStatus.pending := by
  cases span
  rfl

/-- C4 counterexample: `buildExecutionContext` applied to three empty strings
returns the record of empty strings instead of raising; no emptiness check
exists. -/
theorem buildExecutionContext_empty_counterexample :
    buildExecutionContext "" "" ""
      = { execution_id := "", parent_span_id := "", core_span_id := "" } :=
  rfl

/-- C4 amended: `buildExecutionContext` is a pure, total construction that
returns the record built from its three arguments; presence of the arguments
is enforced only by TypeScript's type system, and no non-emptiness validation
is performed (empty strings are accepted). -/
theorem buildExecutionContext_pure (executionId coreSpanId parentSpanId : String) :
    buildExecutionContext executionId coreSpanId parentSpanId
      = { execution_id := executionId
          parent_span_id := parentSpanId
          core_span_id := coreSpanId } :=
  rfl

/-- C8: one `finalizeSpan` call on a not-yet-finalized span sets `end_time`
and `status`, appends the supplied artifacts and evidence after all prior
entries in order, and leaves `span_id`, `parent_span_id`, `type`, `name`,
`start_time` and `children` unchanged.  The source mutates and returns the
very same object; in the state-passing embedding this is the single returned
span, fully determined by this equation. -/
theorem finalizeSpan_frame (span : ExecutionSpan) (status : SpanStatus)
    (artifacts : Option (List Artifact))
    (evidence : Option (List EvidenceReference)) (now : String)
    (h : span.end_time = none) :
    finalizeSpan span status artifacts evidence now =
      ExecutionSpan.mk span.span_id span.parent_span_id span.type span.name
        span.start_time (some now) status
        (span.artifacts ++ artifacts.getD [])
        (span.evidence ++ evidence.getD []) span.children := by
  cases span
  rfl

/-- Witness for C8 at a concrete unfinalized span carrying prior entries. -/
theorem finalizeSpan_frame_witness :
    sampleUnfinalized.end_time = none
      ∧ finalizeSpan sampleUnfinalized SpanStatus.success (some [sampleArtifact2])
          (some [sampleEvidence2]) "t9" =
        ExecutionSpan.mk sampleUnfinalized.span_id sampleUnfinalized.parent_span_id
          sampleUnfinalized.type sampleUnfinalized.name sampleUnfinalized.start_time
          (some "t9") SpanStatus.success
          (sampleUnfinalized.artifacts ++ [sampleArtifact2])
          (sampleUnfinalized.evidence ++ [sampleEvidence2])
          sampleUnfinalized.children :=
  ⟨rfl, finalizeSpan_frame sampleUnfinalized SpanStatus.success
    (some [sampleArtifact2]) (some [sampleEvidence2]) "t9" rfl⟩

/-! ## Validator claim data and theorems -/

/-- An agent span sitting (incorrectly) directly under a core root. -/
def c5agent : ExecutionSpan :=
  .mk "a5" (some "c5") SpanType.agent "agent-5" "t0" none SpanStatus.success [] [] []

/-- A core root with no repo children but one (non-repo) agent child. -/
def c5root : ExecutionSpan :=
  .mk "c5" none SpanType.core "core-5" "t0" none SpanStatus.success [] [] [c5agent]

/-- A core root with no children at all. -/
def c5empty : ExecutionSpan :=
  .mk "c0" none SpanType.core "core-0" "t0" none SpanStatus.success [] [] []

/-- C5 counterexample: a core root with zero repo children but one agent child
yields two failures (the zero-repo failure plus the non-repo-child failure),
not exactly one. -/
theorem validate_zero_repo_counterexample :
    c5root.type = SpanType.core
      ∧ (c5root.children.filter (fun c => c.type == SpanType.repo)).length = 0
      ∧ (validateExecutionGraph c5root).failures
        = [zeroRepoFailure, nonRepoChildFailure c5agent]
      ∧ (validateExecutionGraph c5root).failures.length = 2
      ∧ (validateExecutionGraph c5root).valid = false := by
  refine ⟨rfl, rfl, ?_, rfl, rfl⟩
  decide

/-- C5 amended: for every tree whose core-typed root has no repo-tier child,
`validateExecutionGraph` returns `valid = false` and its failure list is
exactly the "Core span has zero repo-level child spans" failure followed by
one "non-repo child" failure per child of the root (every child is then
non-repo); hence the zero-repo failure is the only one precisely when the
root has no children at all. -/
theorem validate_zero_repo_reports_failure (s : ExecutionSpan)
    (htype : s.type = SpanType.core)
    (hrepo : (s.children.filter (fun c => c.type == SpanType.repo)).length = 0) :
    (validateExecutionGraph s).failures
        = zeroRepoFailure :: s.children.map nonRepoChildFailure
      ∧ (validateExecutionGraph s).valid = false
      ∧ ((validateExecutionGraph s).failures = [zeroRepoFailure]
          ↔ s.children = []) := by
  have hnil : s.children.filter (fun c => c.type == SpanType.repo) = [] :=
    List.length_eq_zero.mp hrepo
  have hnonrepo : ∀ c ∈ s.children, ¬(c.type == SpanType.repo) = true :=
    List.filter_eq_nil_iff.mp hnil
  have hself : s.children.filter (fun c => !(c.type == SpanType.repo))
      = s.children := by
    rw [List.filter_eq_self]
    intro c hc
    have hfalse : (c.type == SpanType.repo) = false :=
      Bool.eq_false_iff.mpr (hnonrepo c hc)
    rw [hfalse]
    rfl
  have hfail : (validateExecutionGraph s).failures
      = zeroRepoFailure :: s.children.map nonRepoChildFailure := by
    rw [validateExecutionGraph_failures, if_pos htype, if_pos hrepo, hnil, hself]
    simp
  refine ⟨hfail, ?_, ?_⟩
  · exact valid_eq_false_of_mem_failures s _ (by rw [hfail]; exact List.mem_cons_self _ _)
  · rw [hfail]
    constructor
    · intro h1
      simp only [List.cons.injEq, true_and] at h1
      exact List.map_eq_nil_iff.mp h1
    · intro h2
      rw [h2]
      rfl

/-- Witness for C5 amended at the core root whose single child is an agent:
the failure list is exactly the zero-repo failure followed by that child's
non-repo-child failure. -/
theorem validate_zero_repo_reports_failure_witness :
    c5root.type = SpanType.core
      ∧ (c5root.children.filter (fun c => c.type == SpanType.repo)).length = 0
      ∧ ((validateExecutionGraph c5root).failures
            = zeroRepoFailure :: c5root.children.map nonRepoChildFailure
          ∧ (validateExecutionGraph c5root).valid = false
          ∧ ((validateExecutionGraph c5root).failures = [zeroRepoFailure]
              ↔ c5root.children = [])) :=
  ⟨rfl, rfl, validate_zero_repo_reports_failure c5root rfl rfl⟩

/-- C6: whenever a repo-tier child of the root has zero agent-tier children,
the validator's failures contain the zero-agent failure naming that specific
repo span, and `valid = false`.  Because this holds for every such repo child
of the same tree, all offending repo spans are reported in one pass. -/
theorem validate_reports_each_zero_agent_repo (s r : ExecutionSpan)
    (hmem : r ∈ s.children) (htype : r.type = SpanType.repo)
    (hagents : (r.children.filter (fun c => c.type == SpanType.agent)).length = 0) :
    zeroAgentFailure r ∈ (validateExecutionGraph s).failures
      ∧ (validateExecutionGraph s).valid = false := by
  have hr : r ∈ s.children.filter (fun c => c.type == SpanType.repo) := by
    rw [List.mem_filter]
    exact ⟨hmem, by simp [htype]⟩
  have hin : zeroAgentFailure r ∈ repoSpanFailures s r := by
    simp [repoSpanFailures, hagents]
  have hflat : zeroAgentFailure r ∈
      ((s.children.filter (fun c => c.type == SpanType.repo)).map
        (repoSpanFailures s)).flatten := by
    rw [List.mem_flatten]
    exact ⟨repoSpanFailures s r, List.mem_map_of_mem _ hr, hin⟩
  have hmem2 : zeroAgentFailure r ∈ (validateExecutionGraph s).failures := by
    rw [validateExecutionGraph_failures]
    simp only [List.mem_append]
    exact Or.inl (Or.inr hflat)
  exact ⟨hmem2, valid_eq_false_of_mem_failures s _ hmem2⟩

/-- A childless repo span under the c6 root. -/
def c6repoA : ExecutionSpan :=
  .mk "rA" (some "c6") SpanType.repo "repo-A" "t0" none SpanStatus.success [] [] []

/-- A second childless repo span under the c6 root. -/
def c6repoB : ExecutionSpan :=
  .mk "rB" (some "c6") SpanType.repo "repo-B" "t0" none SpanStatus.success [] [] []

/-- A core root carrying two repo children, both without agent children. -/
def c6root : ExecutionSpan :=
  .mk "c6" none SpanType.core "core-6" "t0" none SpanStatus.success [] []
    [c6repoA, c6repoB]

/-- Witness for C6: both offending repo spans of the same tree are reported. -/
theorem validate_reports_each_zero_agent_repo_witness :
    (c6repoA ∈ c6root.children ∧ c6repoA.type = SpanType.repo
        ∧ (c6repoA.children.filter (fun c => c.type == SpanType.agent)).length = 0
        ∧ (zeroAgentFailure c6repoA ∈ (validateExecutionGraph c6root).failures
            ∧ (validateExecutionGraph c6root).valid = false))
      ∧ (zeroAgentFailure c6repoB ∈ (validateExecutionGraph c6root).failures
          ∧ (validateExecutionGraph c6root).valid = false) := by
  have hA : c6repoA ∈ c6root.children := List.mem_cons_self _ _
  have hB : c6repoB ∈ c6root.children :=
    List.mem_cons_of_mem _ (List.mem_cons_self _ _)
  exact ⟨⟨hA, rfl, rfl, validate_reports_each_zero_agent_repo c6root c6repoA hA rfl rfl⟩,
    validate_reports_each_zero_agent_repo c6root c6repoB hB rfl rfl⟩

/-- A well-parented agent child of the c9 repo span. -/
def c9agent : ExecutionSpan :=
  .mk "a1" (some "r1") SpanType.agent "agent-op" "t0" none SpanStatus.success [] [] []

/-- A non-agent (core-typed) stray child of the c9 repo span. -/
def c9stray : ExecutionSpan :=
  .mk "x1" (some "r1") SpanType.core "stray" "t0" none SpanStatus.success [] [] []

/-- A repo span whose children are one proper agent and one non-agent stray. -/
def c9repo : ExecutionSpan :=
  .mk "r1" (some "c1") SpanType.repo "repo-1" "t0" none SpanStatus.success [] []
    [c9agent, c9stray]

/-- A structurally valid core root over `c9repo`. -/
def c9root : ExecutionSpan :=
  .mk "c1" none SpanType.core "core-1" "t0" none SpanStatus.success [] [] [c9repo]

/-- C9: the validator never flags a non-agent child of a repo span.  In the
concrete tree `c9root`, the repo-tier child `c9repo` of the core root has the
correctly parented agent child `c9agent` but also the non-agent (core-typed)
child `c9stray`, and validation still returns `valid = true` with an empty
failure list — the structural-contamination check exists only for direct
children of the core root, so the data-model rule that all children of a repo
span are agents is not enforced by validation. -/
theorem validate_ignores_non_agent_repo_children :
    c9repo ∈ c9root.children
      ∧ c9repo.type = SpanType.repo
      ∧ c9agent ∈ c9repo.children
      ∧ c9agent.type = SpanType.agent
      ∧ c9agent.parent_span_id = some c9repo.span_id
      ∧ c9stray ∈ c9repo.children
      ∧ c9stray.type ≠ SpanType.agent
      ∧ (validateExecutionGraph c9root).valid = true
      ∧ (validateExecutionGraph c9root).failures = [] := by
  refine ⟨List.mem_cons_self _ _, rfl, List.mem_cons_self _ _, rfl, rfl, ?_,
    by decide, ?_, ?_⟩
  · exact List.mem_cons_of_mem _ (List.mem_cons_self _ _)
  · decide
  · decide

/-! ## Traversal claim (C7) -/

/-- The flat collection of a tree has exactly as many entries as the tree has
spans. -/
theorem length_collectAllSpans (t : ExecutionSpan) :
    (collectAllSpans t).length = spanCount t := by
  induction t using ExecutionSpan.recOnMem with
  | h i p ty n st et s a e ch ih =>
    rw [collectAllSpans_eq, spanCount_mk]
    simp only [List.length_cons, List.length_flatten, ExecutionSpan.children,
      List.map_map]
    have hsum : ∀ l : List ExecutionSpan,
        (∀ c ∈ l, (collectAllSpans c).length = spanCount c) →
        (l.map (fun c => (collectAllSpans c).length)).sum = (l.map spanCount).sum := by
      intro l hl
      induction l with
      | nil => rfl
      | cons x xs ihx =>
        simp only [List.map_cons, List.sum_cons, hl x (by simp)]
        rw [ihx (fun c hc => hl c (by simp [hc]))]
    simp only [Function.comp_def]
    rw [hsum ch ih]
    omega

/-- Coercing a flattened list of lists to a multiset sums the coercions. -/
theorem coe_flatten_multiset {α : Type} (Ls : List (List α)) :
    Multiset.ofList Ls.flatten = (Ls.map Multiset.ofList).sum := by
  induction Ls with
  | nil => rfl
  | cons l ls ih =>
    simp only [List.flatten_cons, List.map_cons, List.sum_cons, ← ih]
    rfl

/-- As a multiset, the flat collection is exactly the multiset of tree nodes:
every node reachable from the root appears exactly once, so there are no
duplicates and no omissions, and each collected entry is the tree's own node
with all of its fields (in particular `parent_span_id`) intact. -/
theorem multiset_collectAllSpans (t : ExecutionSpan) :
    Multiset.ofList (collectAllSpans t) = nodes t := by
  induction t using ExecutionSpan.recOnMem with
  | h i p ty n st et s a e ch ih =>
    rw [collectAllSpans_eq, nodes_mk]
    simp only [ExecutionSpan.children]
    rw [show Multiset.ofList (ExecutionSpan.mk i p ty n st et s a e ch ::
          (ch.map collectAllSpans).flatten)
        = ExecutionSpan.mk i p ty n st et s a e ch ::ₘ
          Multiset.ofList (ch.map collectAllSpans).flatten from rfl]
    rw [coe_flatten_multiset, List.map_map]
    have hmaps : ch.map (Multiset.ofList ∘ collectAllSpans) = ch.map nodes := by
      apply List.map_congr_left
      intro c hc
      exact ih c hc
    rw [hmaps]

/-- C7: `collectAllSpans` on a tree with N total spans returns exactly N
entries, in pre-order (the root first, then each child's flattened subtree in
child order), and — as a multiset — exactly the tree's nodes: no duplicates,
no omissions, and every collected span is the tree's own node, retaining its
`parent_span_id` and every other field.  The embedding is a pure function, so
the tree itself is not mutated. -/
theorem collectAllSpans_spec (t : ExecutionSpan) :
    (collectAllSpans t).length = spanCount t
      ∧ collectAllSpans t = t :: (t.children.map collectAllSpans).flatten
      ∧ Multiset.ofList (collectAllSpans t) = nodes t :=
  ⟨length_collectAllSpans t, collectAllSpans_eq t, multiset_collectAllSpans t⟩

end InterfaceCore
